import Mathlib

/-!
Shallow embedding of `publicAPI/crest_endpoint.py` (ProsperAPI).

The two Flask-RESTful handlers (`OHLC_endpoint.get`, `ProphetEndpoint.get`)
are embedded as pure Lean functions.  Their collaborators
(`crest_utils.validate_id`, `crest_utils.fetch_market_history`,
`forecast_utils.fetch_extended_history`, `crest_utils.OHLC_to_format`,
`forecast_utils.build_forecast`, `forecast_utils.data_to_format`) live in
modules that are not part of the analysed sources, so they are passed in as
an oracle record `Collab`: each call either returns a value or raises a
Python exception.  Each handler returns its outcome (a Flask response, or an
exception propagating uncaught out of the handler) together with the ordered
list of collaborator calls and log statements it performed, so that claims
about call ordering, fallback and logging can be stated.

The series and formatted payloads are opaque to the handlers (they are only
threaded from one collaborator call to the next), so they are modelled as
opaque tokens (`Nat`).
-/

namespace ProsperAPI

/-- A Python exception as the handlers can observe it.  The handlers branch
on `isinstance(err, exceptions.ValidatorException)` and on the `message` /
`status` attributes of such errors; `nameError` models the interpreter's
`NameError` for an unbound name. -/
inductive PyExc where
  | validator (message : String) (status : Nat)
  | other (message : String)
  | nameError (name : String)
deriving DecidableEq

/-- The runtime-type test `isinstance(err, exceptions.ValidatorException)`
(crest_endpoint.py lines 138, 157, 239). -/
def PyExc.isValidatorException : PyExc → Bool
  | .validator _ _ => true
  | _ => false

/-- Result of calling a Python collaborator: a returned value or a raised
exception. -/
inductive PyResult (α : Type) where
  | ok (val : α)
  | exc (e : PyExc)
deriving DecidableEq

/-- Opaque token standing for a fetched history series (the handlers never
inspect its contents, only pass it along). -/
abbrev SeriesData := Nat

/-- Opaque token standing for a formatted payload returned by a formatter. -/
abbrev Formatted := Nat

/-- Body of a Flask response: either formatted data or a plain string
(the error-message returns of the handlers). -/
inductive RespBody where
  | payload (d : Formatted)
  | text (s : String)
deriving DecidableEq

/-- An HTTP response as produced by returning from a flask_restful handler:
a bare return value carries status 200, a `(body, status)` tuple carries the
given status. -/
structure Response where
  body : RespBody
  status : Nat
deriving DecidableEq

/-- Outcome of running a handler body: a response handed to Flask, or an
exception that propagates uncaught out of the handler. -/
inductive HandlerOutcome where
  | response (r : Response)
  | raised (e : PyExc)
deriving DecidableEq

/-- Observable actions of a handler body, in execution order: collaborator
calls and log statements. -/
inductive CallEvent where
  | validateCall (catalog : String) (id : Int)
  | marketFetch (regionID typeID : Int)
  | archiveFetch (regionID typeID : Int)
  | buildCall (data : SeriesData) (horizon : String)
  | ohlcFormatCall (data : SeriesData) (return_type : String)
  | dataFormatCall (data : SeriesData) (return_type : String)
  | logInfoOHLC (regionID typeID : Int)
  | logInfoProphet (regionID typeID : Int) (rng : Option Int)
  | logWarning (tag : String) (e : PyExc)
deriving DecidableEq

/-- Oracle record for the collaborators the handlers call.  Field names
match the Python functions.  `validate_id` returns `None` on success
(crest_utils module); the fetchers return a series; the formatters return a
formatted payload. -/
structure Collab where
  validate_id : String → Int → PyResult Unit
  fetch_market_history : Int → Int → PyResult SeriesData
  fetch_extended_history : Int → Int → PyResult SeriesData
  OHLC_to_format : SeriesData → String → PyResult Formatted
  build_forecast : SeriesData → String → PyResult SeriesData
  data_to_format : SeriesData → String → PyResult Formatted

/-- Module-level configuration values read at import time
(crest_endpoint.py lines 170-171).  `ProsperConfig.get` returns strings, so
both are strings. -/
structure ModuleConfig where
  DEFAULT_RANGE : String
  MAX_RANGE : String

/-- The repeated error-return idiom of the handlers (lines 138-141, 157-160,
239-242): a `ValidatorException` is returned as `(err.message, err.status)`,
anything else as `('UNHANDLED EXCEPTION', 500)`. -/
def exceptToResponse (e : PyExc) : Response :=
  match e with
  | .validator m s => ⟨.text m, s⟩
  | _ => ⟨.text "UNHANDLED EXCEPTION", 500⟩

/-- Embedding of `OHLC_endpoint.get(self, return_type)`
(crest_endpoint.py lines 109-168).

Source structure: log the request (112-116); validate regionID against
`map_regions` then typeID against `inventory_types` inside one try, with the
except block logging a warning and returning `exceptToResponse err`
(120-141); fetch market history inside a second try with the same except
idiom (145-160); finally call `OHLC_to_format(data, return_type)` outside
any try (163-166) and return the message (a bare return, hence status 200).
An exception from `OHLC_to_format` therefore propagates uncaught. -/
def OHLC_endpoint_get (c : Collab) (return_type : String) (regionID typeID : Int) :
    HandlerOutcome × List CallEvent :=
  let ev0 : List CallEvent := [.logInfoOHLC regionID typeID]
  match c.validate_id "map_regions" regionID with
  | .exc e =>
      (.response (exceptToResponse e),
       ev0 ++ [.validateCall "map_regions" regionID,
               .logWarning "ERROR: unable to validate type/region ids" e])
  | .ok _ =>
    let ev1 := ev0 ++ [.validateCall "map_regions" regionID]
    match c.validate_id "inventory_types" typeID with
    | .exc e =>
        (.response (exceptToResponse e),
         ev1 ++ [.validateCall "inventory_types" typeID,
                 .logWarning "ERROR: unable to validate type/region ids" e])
    | .ok _ =>
      let ev2 := ev1 ++ [.validateCall "inventory_types" typeID]
      match c.fetch_market_history regionID typeID with
      | .exc e =>
          (.response (exceptToResponse e),
           ev2 ++ [.marketFetch regionID typeID,
                   .logWarning "ERROR: unable to parse CREST data" e])
      | .ok data =>
        let ev3 := ev2 ++ [.marketFetch regionID typeID]
        match c.OHLC_to_format data return_type with
        | .exc e => (.raised e, ev3 ++ [.ohlcFormatCall data return_type])
        | .ok message =>
            (.response ⟨.payload message, 200⟩,
             ev3 ++ [.ohlcFormatCall data return_type])

/-- The parsed request arguments of the prophet endpoint that its body
reads: regionID, typeID and the optional `range` argument (lines 176-210).
The required `User-Agent` and `api` arguments are parsed by reqparse but
never read by the body, so they are omitted here. -/
structure ProphetArgs where
  regionID : Int
  typeID : Int
  range : Option Int
deriving DecidableEq

/-- Embedding of `ProphetEndpoint.get(self)` (crest_endpoint.py lines
212-272).

Source structure: log the request including the range argument (214-218);
validate both ids with the same try/except idiom as OHLC (221-242); set
`forecast_range = DEFAULT_RANGE` with no validation of the request's range
argument (`#TODO: validate range`, lines 244-245); try
`fetch_extended_history`, and on any exception log a warning (with the
exception) and call `fetch_market_history` for the same pair — this fallback
call is outside any try, so its exception propagates uncaught (248-261);
call `build_forecast(data, forecast_range)` outside any try (262-265);
finally line 267-270 evaluates the name `return_type`, which is unbound —
`get(self)` takes no such parameter (unlike `OHLC_endpoint.get`) and the
module defines no such name — so the handler raises `NameError` before
`data_to_format` is ever called. -/
def ProphetEndpoint_get (cfg : ModuleConfig) (c : Collab) (args : ProphetArgs) :
    HandlerOutcome × List CallEvent :=
  let ev0 : List CallEvent := [.logInfoProphet args.regionID args.typeID args.range]
  match c.validate_id "map_regions" args.regionID with
  | .exc e =>
      (.response (exceptToResponse e),
       ev0 ++ [.validateCall "map_regions" args.regionID,
               .logWarning "ERROR: unable to validate type/region ids" e])
  | .ok _ =>
    let ev1 := ev0 ++ [.validateCall "map_regions" args.regionID]
    match c.validate_id "inventory_types" args.typeID with
    | .exc e =>
        (.response (exceptToResponse e),
         ev1 ++ [.validateCall "inventory_types" args.typeID,
                 .logWarning "ERROR: unable to validate type/region ids" e])
    | .ok _ =>
      let ev2 := ev1 ++ [.validateCall "inventory_types" args.typeID]
      let forecast_range := cfg.DEFAULT_RANGE
      let afterFetch : PyResult SeriesData × List CallEvent :=
        match c.fetch_extended_history args.regionID args.typeID with
        | .ok data => (.ok data, ev2 ++ [.archiveFetch args.regionID args.typeID])
        | .exc eArch =>
            let ev3 := ev2 ++ [.archiveFetch args.regionID args.typeID,
                               .logWarning "Unable to fetch data from archive" eArch]
            match c.fetch_market_history args.regionID args.typeID with
            | .ok data => (.ok data, ev3 ++ [.marketFetch args.regionID args.typeID])
            | .exc e => (.exc e, ev3 ++ [.marketFetch args.regionID args.typeID])
      match afterFetch with
      | (.exc e, evs) => (.raised e, evs)
      | (.ok data, evs) =>
        let evs2 := evs ++ [.buildCall data forecast_range]
        match c.build_forecast data forecast_range with
        | .exc e => (.raised e, evs2)
        | .ok _ =>
            -- line 269: the name `return_type` is unbound in this scope;
            -- evaluating it raises NameError before data_to_format is called
            (.raised (.nameError "return_type"), evs2)

/-- The member names of `class AcceptedDataFormat(Enum): CSV = 0; JSON = 1`
(crest_endpoint.py lines 32-35). -/
def acceptedDataFormat_member_names : List String := ["CSV", "JSON"]

/-- The keys of `AcceptedDataFormat.__dict__` at runtime: CPython's enum
machinery stores its bookkeeping entries (all of which contain an
underscore) alongside the member names in the class dict.  Order: the class
body binds the dunder entries first, then the members in declaration
order. -/
def acceptedDataFormat_dict_keys : List String :=
  ["__module__", "__qualname__", "__doc__",
   "_member_names_", "_member_map_", "_value2member_map_",
   "__new__", "__new_member__"] ++ acceptedDataFormat_member_names

/-- Python's `str.lower` on a single character, for the ASCII identifiers
involved here: uppercase ASCII letters map to lowercase, everything else is
unchanged. -/
def pyLowerChar (c : Char) : Char :=
  if 65 ≤ c.toNat ∧ c.toNat ≤ 90 then Char.ofNat (c.toNat + 32) else c

/-- Python's `str.lower` on ASCII strings. -/
def pyLower (s : String) : String := ⟨s.data.map pyLowerChar⟩

/-- Python's `'_' not in key` membership test. -/
def hasUnderscore (k : String) : Bool := k.data.contains '_'

/-- Embedding of `return_supported_types()` (crest_endpoint.py lines 37-44):
collect every key of `AcceptedDataFormat.__dict__` not containing `'_'`,
lowercased, in iteration order. -/
def return_supported_types : List String :=
  (acceptedDataFormat_dict_keys.filter fun k => !(hasUnderscore k)).map pyLower

/-- The names bound in the crest_endpoint module namespace by the time the
`def collect_stats` statement at line 46 executes (imports at lines 3-18,
module constants at lines 20-30, and the declarations at lines 32-44). -/
def crestEndpointModuleNames : List String :=
  ["sys", "path", "datetime", "Enum", "json", "Flask", "Response", "jsonify",
   "reqparse", "Api", "Resource", "request", "forecast_utils", "crest_utils",
   "exceptions", "api_config", "p_logging", "p_config",
   "HERE", "CONFIG_FILEPATH", "CONFIG", "LOGGER", "DEBUG", "TEST", "API",
   "AcceptedDataFormat", "return_supported_types"]

/-- Embedding of executing the `def collect_stats(...)` statement itself
(crest_endpoint.py lines 46-52).  Python evaluates default-argument
expressions at definition time in the enclosing (module) scope: the defaults
`None` and `'CREST_stats.json'` are literals, but `logger=DEFAULT_LOGGER`
(line 51) looks up the name `DEFAULT_LOGGER`, raising `NameError` when it is
unbound.  On success the function object is bound (its body is `pass`, so
calling it would return `None`). -/
def collect_stats_def_eval : PyResult Unit :=
  if "DEFAULT_LOGGER" ∈ crestEndpointModuleNames then .ok ()
  else .exc (.nameError "DEFAULT_LOGGER")

/-- Whether a trace contains any data-source fetch call. -/
def hasFetch (tr : List CallEvent) : Bool :=
  tr.any fun ev =>
    match ev with
    | .marketFetch _ _ => true
    | .archiveFetch _ _ => true
    | _ => false

/-- Number of `fetch_extended_history` calls recorded in a trace. -/
def countArchiveFetches (tr : List CallEvent) : Nat :=
  (tr.filter fun ev => match ev with | .archiveFetch _ _ => true | _ => false).length

/-- Number of `fetch_market_history` calls recorded in a trace. -/
def countMarketFetches (tr : List CallEvent) : Nat :=
  (tr.filter fun ev => match ev with | .marketFetch _ _ => true | _ => false).length

/-- The horizons of the `build_forecast` calls recorded in a trace, in
order. -/
def buildHorizons (tr : List CallEvent) : List String :=
  tr.filterMap fun ev => match ev with | .buildCall _ h => some h | _ => none

/-- Modelled from the spec: `publicAPI/exceptions.py` is not among the
analysed sources, so the status codes its `ValidatorException` family
carries are taken from the spec, which states that each typed error carries
a message and a status code and that "`ValidationError`-family errors map to
4xx".  The predicate states that an exception, if it is of the
ValidatorException family, carries a 4xx status. -/
def ValidatorStatusIn4xx (e : PyExc) : Prop :=
  ∀ m s, e = .validator m s → 400 ≤ s ∧ s ≤ 499

/-- Collaborator oracle where every call succeeds: validations pass, the
archive fetch returns series token 22, the market fetch returns token 21,
and the downstream steps succeed. -/
def collabAllOk : Collab where
  validate_id := fun _ _ => .ok ()
  fetch_market_history := fun _ _ => .ok 21
  fetch_extended_history := fun _ _ => .ok 22
  OHLC_to_format := fun d _ => .ok (d + 100)
  build_forecast := fun d _ => .ok (d + 1)
  data_to_format := fun d _ => .ok (d + 100)

/-- Collaborator oracle where only the archive fetch fails. -/
def collabArchiveDown : Collab where
  validate_id := fun _ _ => .ok ()
  fetch_market_history := fun _ _ => .ok 21
  fetch_extended_history := fun _ _ => .exc (.other "archive connection refused")
  OHLC_to_format := fun d _ => .ok (d + 100)
  build_forecast := fun d _ => .ok (d + 1)
  data_to_format := fun d _ => .ok (d + 100)

/-- Collaborator oracle where both data-source fetches fail. -/
def collabBothDown : Collab where
  validate_id := fun _ _ => .ok ()
  fetch_market_history := fun _ _ => .exc (.other "market fetch: status 503")
  fetch_extended_history := fun _ _ => .exc (.other "archive connection refused")
  OHLC_to_format := fun d _ => .ok (d + 100)
  build_forecast := fun d _ => .ok (d + 1)
  data_to_format := fun d _ => .ok (d + 100)

/-- Collaborator oracle where only the market fetch fails. -/
def collabMarketDown : Collab where
  validate_id := fun _ _ => .ok ()
  fetch_market_history := fun _ _ => .exc (.other "market fetch: status 503")
  fetch_extended_history := fun _ _ => .ok 22
  OHLC_to_format := fun d _ => .ok (d + 100)
  build_forecast := fun d _ => .ok (d + 1)
  data_to_format := fun d _ => .ok (d + 100)

/-- Collaborator oracle whose catalogs contain only id 34: validating any
other id raises a `ValidatorException` with a 404 status. -/
def collabBadRegion : Collab where
  validate_id := fun _ i => if i = 34 then .ok () else .exc (.validator "invalid id" 404)
  fetch_market_history := fun _ _ => .ok 21
  fetch_extended_history := fun _ _ => .ok 22
  OHLC_to_format := fun d _ => .ok (d + 100)
  build_forecast := fun d _ => .ok (d + 1)
  data_to_format := fun d _ => .ok (d + 100)

/-- C1: in the forecast path with valid ids, a failing archive fetch and a
succeeding market fetch, the handler does fall back exactly once to the
market source for the same pair and only logs the archive failure, but the
run then raises `NameError` on the unbound name `return_type` (line 269;
`ProphetEndpoint.get` takes no such parameter), so the pipeline never
returns the claimed successful forecast built from the market series. -/
theorem prophet_archive_fallback_then_name_error :
    ProphetEndpoint_get ⟨"60", "180"⟩ collabArchiveDown ⟨10000002, 34, none⟩ =
      (.raised (.nameError "return_type"),
       [.logInfoProphet 10000002 34 none,
        .validateCall "map_regions" 10000002,
        .validateCall "inventory_types" 34,
        .archiveFetch 10000002 34,
        .logWarning "Unable to fetch data from archive" (.other "archive connection refused"),
        .marketFetch 10000002 34,
        .buildCall 21 "60"]) := by rfl

/-- C2: a forecast request whose range argument (999999) exceeds the
configured maximum ("180") is not rejected with any 4xx response: the
handler performs no bounds validation (line 244 is a TODO), proceeds to call
`build_forecast` with the configured default horizon, and the run ends in
the `NameError` raise rather than any response naming the range bound. -/
theorem prophet_oversized_range_not_rejected :
    CallEvent.buildCall 22 "60" ∈
      (ProphetEndpoint_get ⟨"60", "180"⟩ collabAllOk ⟨10000002, 34, some 999999⟩).2 ∧
    (ProphetEndpoint_get ⟨"60", "180"⟩ collabAllOk ⟨10000002, 34, some 999999⟩).1 =
      .raised (.nameError "return_type") := by decide

/-- C6: in the forecast path, when the archive fetch fails and the fallback
market fetch also fails, the fallback's exception propagates uncaught out of
the handler (the fallback call at lines 258-261 is outside any try block),
instead of being caught and translated into a typed status-and-body response
or a generic 500 from the handler. -/
theorem prophet_fallback_failure_uncaught :
    ProphetEndpoint_get ⟨"60", "180"⟩ collabBothDown ⟨10000002, 34, none⟩ =
      (.raised (.other "market fetch: status 503"),
       [.logInfoProphet 10000002 34 none,
        .validateCall "map_regions" 10000002,
        .validateCall "inventory_types" 34,
        .archiveFetch 10000002 34,
        .logWarning "Unable to fetch data from archive" (.other "archive connection refused"),
        .marketFetch 10000002 34]) := by rfl

/-- C7: a forecast request that passes validation and obtains a series never
reaches `data_to_format`: evaluating the unbound name `return_type` at line
269 raises `NameError` (the trace contains no `dataFormatCall`), so no
formatted 200 payload is ever produced on the prophet path. -/
theorem prophet_format_step_raises_name_error :
    ProphetEndpoint_get ⟨"60", "180"⟩ collabAllOk ⟨10000002, 34, none⟩ =
      (.raised (.nameError "return_type"),
       [.logInfoProphet 10000002 34 none,
        .validateCall "map_regions" 10000002,
        .validateCall "inventory_types" 34,
        .archiveFetch 10000002 34,
        .buildCall 22 "60"]) := by rfl

/-- C9: executing the `def collect_stats` statement raises `NameError`: its
default argument `logger=DEFAULT_LOGGER` (line 51) names `DEFAULT_LOGGER`,
which is unbound in the module — the module binds `LOGGER` (line 24) — so
the function is never defined and is not safely callable at all. -/
theorem collect_stats_def_raises_name_error :
    collect_stats_def_eval = .exc (.nameError "DEFAULT_LOGGER") ∧
    "LOGGER" ∈ crestEndpointModuleNames ∧
    "DEFAULT_LOGGER" ∉ crestEndpointModuleNames := by decide

/-- C8: `return_supported_types()` returns exactly the lowercased member
names of `AcceptedDataFormat`, namely the closed set `["csv", "json"]`. -/
theorem return_supported_types_eq_csv_json :
    return_supported_types = acceptedDataFormat_member_names.map pyLower ∧
    return_supported_types = ["csv", "json"] := by decide

/-- C3: the OHLC handler contains no call to `fetch_extended_history` at all
(every execution records zero archive fetches), and when the ids validate
but `fetch_market_history` raises, the handler returns the error response
derived from the raised exception — never a success payload. -/
theorem ohlc_fetch_failure_no_fallback
    (c : Collab) (return_type : String) (regionID typeID : Int) (e : PyExc)
    (hr : c.validate_id "map_regions" regionID = .ok ())
    (ht : c.validate_id "inventory_types" typeID = .ok ())
    (hf : c.fetch_market_history regionID typeID = .exc e) :
    (∀ c2 rt2 r2 t2, countArchiveFetches (OHLC_endpoint_get c2 rt2 r2 t2).2 = 0) ∧
    (OHLC_endpoint_get c return_type regionID typeID).1 = .response (exceptToResponse e) ∧
    ∀ d s, (OHLC_endpoint_get c return_type regionID typeID).1 ≠ .response ⟨.payload d, s⟩ := by
  refine ⟨?_, ?_, ?_⟩
  · intro c2 rt2 r2 t2
    cases h1 : c2.validate_id "map_regions" r2 with
    | exc e1 => simp [OHLC_endpoint_get, h1, countArchiveFetches]
    | ok u1 =>
      cases h2 : c2.validate_id "inventory_types" t2 with
      | exc e2 => simp [OHLC_endpoint_get, h1, h2, countArchiveFetches]
      | ok u2 =>
        cases h3 : c2.fetch_market_history r2 t2 with
        | exc e3 => simp [OHLC_endpoint_get, h1, h2, h3, countArchiveFetches]
        | ok d =>
          cases h4 : c2.OHLC_to_format d rt2 with
          | exc e4 => simp [OHLC_endpoint_get, h1, h2, h3, h4, countArchiveFetches]
          | ok m => simp [OHLC_endpoint_get, h1, h2, h3, h4, countArchiveFetches]
  · simp [OHLC_endpoint_get, hr, ht, hf]
  · intro d s
    simp only [OHLC_endpoint_get, hr, ht, hf]
    cases e <;> simp [exceptToResponse]

/-- C4: in both handlers, a validation exception (on the region id, or on
the type id after the region validated) makes the handler return the
corresponding error response with no data-source fetch recorded in the
trace: no fetch is ever attempted unless both `validate_id` calls completed
without raising. -/
theorem validation_failure_gates_fetches
    (cfg : ModuleConfig) (c : Collab) (return_type : String) (args : ProphetArgs) (e : PyExc)
    (hval : c.validate_id "map_regions" args.regionID = .exc e ∨
      (c.validate_id "map_regions" args.regionID = .ok () ∧
       c.validate_id "inventory_types" args.typeID = .exc e)) :
    hasFetch (OHLC_endpoint_get c return_type args.regionID args.typeID).2 = false ∧
    hasFetch (ProphetEndpoint_get cfg c args).2 = false ∧
    (OHLC_endpoint_get c return_type args.regionID args.typeID).1 =
      .response (exceptToResponse e) ∧
    (ProphetEndpoint_get cfg c args).1 = .response (exceptToResponse e) := by
  rcases hval with h1 | ⟨h1, h2⟩
  · exact ⟨by simp [OHLC_endpoint_get, h1, hasFetch],
      by simp [ProphetEndpoint_get, h1, hasFetch],
      by simp [OHLC_endpoint_get, h1],
      by simp [ProphetEndpoint_get, h1]⟩
  · exact ⟨by simp [OHLC_endpoint_get, h1, h2, hasFetch],
      by simp [ProphetEndpoint_get, h1, h2, hasFetch],
      by simp [OHLC_endpoint_get, h1, h2],
      by simp [ProphetEndpoint_get, h1, h2]⟩

/-- C5: in the OHLC handler, every exception raised during id validation or
the market fetch yields a plain-text response: a ValidatorException yields
its own message together with its own (4xx, per the spec-modelled
exceptions contract) status, and any other exception yields the generic body
"UNHANDLED EXCEPTION" with status 500. -/
theorem ohlc_error_responses
    (c : Collab) (return_type : String) (regionID typeID : Int) (e : PyExc)
    (hraised : c.validate_id "map_regions" regionID = .exc e ∨
      (c.validate_id "map_regions" regionID = .ok () ∧
       c.validate_id "inventory_types" typeID = .exc e) ∨
      (c.validate_id "map_regions" regionID = .ok () ∧
       c.validate_id "inventory_types" typeID = .ok () ∧
       c.fetch_market_history regionID typeID = .exc e))
    (h4xx : ValidatorStatusIn4xx e) :
    ∃ b s, (OHLC_endpoint_get c return_type regionID typeID).1 = .response ⟨.text b, s⟩ ∧
      ((∃ m, e = .validator m s ∧ b = m ∧ 400 ≤ s ∧ s ≤ 499) ∨
       (e.isValidatorException = false ∧ b = "UNHANDLED EXCEPTION" ∧ s = 500)) := by
  have houtcome : (OHLC_endpoint_get c return_type regionID typeID).1 =
      .response (exceptToResponse e) := by
    rcases hraised with h1 | ⟨h1, h2⟩ | ⟨h1, h2, h3⟩
    · simp [OHLC_endpoint_get, h1]
    · simp [OHLC_endpoint_get, h1, h2]
    · simp [OHLC_endpoint_get, h1, h2, h3]
  cases e with
  | validator m s =>
      refine ⟨m, s, by simpa [exceptToResponse] using houtcome, Or.inl ⟨m, rfl, rfl, ?_, ?_⟩⟩
      · exact (h4xx m s rfl).1
      · exact (h4xx m s rfl).2
  | other m =>
      exact ⟨"UNHANDLED EXCEPTION", 500, by simpa [exceptToResponse] using houtcome,
        Or.inr ⟨rfl, rfl, rfl⟩⟩
  | nameError n =>
      exact ⟨"UNHANDLED EXCEPTION", 500, by simpa [exceptToResponse] using houtcome,
        Or.inr ⟨rfl, rfl, rfl⟩⟩

/-- C10: the horizon handed to `build_forecast` never depends on the
request's range argument: two prophet requests identical except in their
range record the same build horizons, and every recorded horizon is the
configured `DEFAULT_RANGE`. -/
theorem prophet_range_has_no_influence_on_horizon
    (cfg : ModuleConfig) (c : Collab) (regionID typeID : Int) (r1 r2 : Option Int) :
    buildHorizons (ProphetEndpoint_get cfg c ⟨regionID, typeID, r1⟩).2 =
      buildHorizons (ProphetEndpoint_get cfg c ⟨regionID, typeID, r2⟩).2 ∧
    (buildHorizons (ProphetEndpoint_get cfg c ⟨regionID, typeID, r1⟩).2).all
      (fun h => h == cfg.DEFAULT_RANGE) = true := by
  cases h1 : c.validate_id "map_regions" regionID with
  | exc e1 => simp [ProphetEndpoint_get, h1, buildHorizons]
  | ok u1 =>
    cases h2 : c.validate_id "inventory_types" typeID with
    | exc e2 => simp [ProphetEndpoint_get, h1, h2, buildHorizons]
    | ok u2 =>
      cases h3 : c.fetch_extended_history regionID typeID with
      | ok d =>
        cases h4 : c.build_forecast d cfg.DEFAULT_RANGE with
        | exc e4 => simp [ProphetEndpoint_get, h1, h2, h3, h4, buildHorizons]
        | ok d2 => simp [ProphetEndpoint_get, h1, h2, h3, h4, buildHorizons]
      | exc eA =>
        cases h5 : c.fetch_market_history regionID typeID with
        | exc e5 => simp [ProphetEndpoint_get, h1, h2, h3, h5, buildHorizons]
        | ok d =>
          cases h4 : c.build_forecast d cfg.DEFAULT_RANGE with
          | exc e4 => simp [ProphetEndpoint_get, h1, h2, h3, h5, h4, buildHorizons]
          | ok d2 => simp [ProphetEndpoint_get, h1, h2, h3, h5, h4, buildHorizons]

/-- Witness for C3 at a concrete input: validations succeed, the market
fetch raises, and the conclusions hold. -/
theorem ohlc_fetch_failure_no_fallback_witness :
    (∀ c2 rt2 r2 t2, countArchiveFetches (OHLC_endpoint_get c2 rt2 r2 t2).2 = 0) ∧
    (OHLC_endpoint_get collabMarketDown "json" 10000002 34).1 =
      .response (exceptToResponse (.other "market fetch: status 503")) ∧
    ∀ d s, (OHLC_endpoint_get collabMarketDown "json" 10000002 34).1 ≠
      .response ⟨.payload d, s⟩ :=
  ohlc_fetch_failure_no_fallback collabMarketDown "json" 10000002 34
    (.other "market fetch: status 503") rfl rfl rfl

/-- Witness for C4 at a concrete input: the region id 999999999 fails
validation, so neither handler records a fetch and both return the
validator's response. -/
theorem validation_failure_gates_fetches_witness :
    hasFetch (OHLC_endpoint_get collabBadRegion "json" 999999999 34).2 = false ∧
    hasFetch (ProphetEndpoint_get ⟨"60", "180"⟩ collabBadRegion ⟨999999999, 34, none⟩).2 = false ∧
    (OHLC_endpoint_get collabBadRegion "json" 999999999 34).1 =
      .response (exceptToResponse (.validator "invalid id" 404)) ∧
    (ProphetEndpoint_get ⟨"60", "180"⟩ collabBadRegion ⟨999999999, 34, none⟩).1 =
      .response (exceptToResponse (.validator "invalid id" 404)) :=
  validation_failure_gates_fetches ⟨"60", "180"⟩ collabBadRegion "json"
    ⟨999999999, 34, none⟩ (.validator "invalid id" 404) (Or.inl (by decide))

/-- Witness for C5 at a concrete input: the failing region validation's
`ValidatorException` with status 404 is returned as its own message and
status. -/
theorem ohlc_error_responses_witness :
    ∃ b s, (OHLC_endpoint_get collabBadRegion "json" 999999999 34).1 =
        .response ⟨.text b, s⟩ ∧
      ((∃ m, PyExc.validator "invalid id" 404 = .validator m s ∧ b = m ∧
          400 ≤ s ∧ s ≤ 499) ∨
       ((PyExc.validator "invalid id" 404).isValidatorException = false ∧
        b = "UNHANDLED EXCEPTION" ∧ s = 500)) :=
  ohlc_error_responses collabBadRegion "json" 999999999 34 (.validator "invalid id" 404)
    (Or.inl (by decide)) (fun m s h => by cases h; exact ⟨by decide, by decide⟩)

end ProsperAPI
